import Mathlib

/-!
Verification of the b3_tracker ingestion-and-analytics pipeline.

The Python modules under src (fetcher.py, models.py) are embedded shallowly:
prices and scores become rationals, absent dict keys and nullable columns
become Option, the pandas series operations become List operations, and the
database table of quotes becomes a list of rows keyed by (asset_id,
quote_date). Function and field names follow the source. Thread pools are
fan-out maps over the asset catalog; completion order only permutes a result
list, so counts and membership are modelled by the catalog order. The 30-day
volatility (a standard deviation, an irrational square root in general) is
carried as its square so the whole development stays in exact arithmetic.
-/

namespace B3

/-- Python truthiness of an optional float: None and 0.0 are falsy, any other
value is truthy. -/
def truthy : Option ℚ → Bool
  | none => false
  | some x => x != 0

/-- One row of a yfinance price history: session date (as an ordinal day
number), the four prices and the traded volume. -/
structure Bar where
  date : ℤ
  open_price : ℚ
  high_price : ℚ
  low_price : ℚ
  close : ℚ
  volume : ℚ
deriving DecidableEq, Inhabited

/-- The Python idiom "float(row.get(k, 0)) if row.get(k) else None": a zero
value is falsy and becomes None. -/
def nonzero_opt (x : ℚ) : Option ℚ := if x = 0 then none else some x

/-- Embeds fetcher.get_historical_price: walk the series backward from the most
recent session and return the close of the first session whose date is at or
before the target date; None when no session qualifies (the empty-series early
return is the find? on an empty reverse). -/
def get_historical_price (hist : List Bar) (target : ℤ) : Option ℚ :=
  (hist.reverse.find? (fun b => b.date ≤ target)).map Bar.close

/-- Embeds fetcher.calculate_change_percent. The guard in the source is the
Python test "previous and previous > 0": truthiness (nonzero) conjoined with
positivity, which collapses to 0 < previous; a missing reference is falsy. -/
def calculate_change_percent (current : ℚ) (previous : Option ℚ) : Option ℚ :=
  match previous with
  | none => none
  | some p => if 0 < p then some ((current - p) / p * 100) else none

/-- Consecutive close-to-close differences: pandas Series.diff with its leading
NaN dropped (the NaN never enters a trailing window of length at most
length - 1). -/
def deltas (prices : List ℚ) : List ℚ :=
  (prices.zip prices.tail).map (fun p => p.2 - p.1)

/-- Mean of the trailing `period` entries of a list, as pandas
rolling(period).mean().iloc[-1] evaluates it when at least `period` entries
exist. -/
def tail_mean (xs : List ℚ) (period : ℕ) : ℚ :=
  (xs.drop (xs.length - period)).sum / (period : ℚ)

/-- Average gain of fetcher.calculate_rsi: trailing rolling mean of the
positive deltas (negative deltas contribute 0). -/
def avg_gain (prices : List ℚ) (period : ℕ) : ℚ :=
  tail_mean ((deltas prices).map (fun d => if 0 < d then d else 0)) period

/-- Average loss of fetcher.calculate_rsi: trailing rolling mean of the negated
negative deltas (positive deltas contribute 0). -/
def avg_loss (prices : List ℚ) (period : ℕ) : ℚ :=
  tail_mean ((deltas prices).map (fun d => if d < 0 then -d else 0)) period

/-- Embeds fetcher.calculate_rsi: None below period + 1 sessions, exactly 100
when the average loss is zero, otherwise 100 - 100 / (1 + rs). -/
def calculate_rsi (prices : List ℚ) (period : ℕ) : Option ℚ :=
  if prices.length < period + 1 then none
  else if avg_loss prices period = 0 then some 100
  else some (100 - 100 / (1 + avg_gain prices period / avg_loss prices period))

/-- Embeds the combined-score step of fetcher.fetch_news_sentiment: weighted
0.6 local plus 0.4 international when both per-source scores exist, the sole
existing score when one exists, None when neither does. -/
def news_sentiment_combined (pt_score en_score : Option ℚ) : Option ℚ :=
  match pt_score, en_score with
  | some p, some e => some (p * (6/10) + e * (4/10))
  | some p, none => some p
  | none, some e => some e
  | none, none => none

/-- Embeds the label step of fetcher.fetch_news_sentiment: positive at or above
0.2, negative at or below -0.2, neutral strictly between, absent when the
combined score is absent. -/
def news_sentiment_label (combined : Option ℚ) : Option String :=
  match combined with
  | none => none
  | some c =>
      if 1/5 ≤ c then some "positive"
      else if c ≤ -(1/5) then some "negative"
      else some "neutral"

/-- Daily fractional returns: pandas pct_change with its leading NaN dropped. -/
def pct_change (closes : List ℚ) : List ℚ :=
  (closes.zip closes.tail).map (fun p => (p.2 - p.1) / p.1)

/-- Trailing window of the last n entries of a list (pandas tail), the whole
list when it is shorter. When fetcher takes tail(30) of the pct_change series,
the NaN pandas keeps at position 0 enters that window only for a 30-session
history, and std skips it there: dropping the NaN up front yields the same
window of real returns. -/
def tail_window (xs : List ℚ) (n : ℕ) : List ℚ := xs.drop (xs.length - n)

/-- Sample variance with one delta degree of freedom: the square of pandas
Series.std. Zero for fewer than two entries (pandas would give NaN, which the
volatility guard in fetcher admits only for the degenerate 1-session case that
a 30-session guard already excludes). -/
def sample_var (xs : List ℚ) : ℚ :=
  if xs.length ≤ 1 then 0
  else (xs.map (fun x => (x - xs.sum / (xs.length : ℚ)) ^ 2)).sum
    / ((xs.length : ℚ) - 1)

/-- Keys fetcher.calculate_technical_indicators writes into the quote dict.
The volatility is carried as its square (sample variance scaled by 100
squared) so that it stays rational. -/
structure Technicals where
  ma_50 : Option ℚ
  above_ma_50 : Option ℤ
  ma_200 : Option ℚ
  above_ma_200 : Option ℤ
  ma_50_above_200 : Option ℤ
  rsi_14 : Option ℚ
  volatility_30d_sq : Option ℚ
  avg_volume_20d : Option ℚ
  volume_ratio : Option ℚ
deriving DecidableEq, Inhabited

/-- Embeds fetcher.calculate_technical_indicators: moving averages over the
trailing 50 and 200 closes with their above-MA flags, the MA50-above-MA200
boolean when both exist, RSI-14, the 30-day volatility (as its square), and
the 20-day volume average and ratio. -/
def calculate_technical_indicators (hist : List Bar) (current_price : ℚ) :
    Technicals :=
  let closes := hist.map Bar.close
  let vols := hist.map Bar.volume
  let n := hist.length
  { ma_50 := if 50 ≤ n then some (tail_mean closes 50) else none,
    above_ma_50 :=
      if 50 ≤ n then some (if tail_mean closes 50 < current_price then 1 else 0)
      else none,
    ma_200 := if 200 ≤ n then some (tail_mean closes 200) else none,
    above_ma_200 :=
      if 200 ≤ n then some (if tail_mean closes 200 < current_price then 1 else 0)
      else none,
    ma_50_above_200 :=
      if 200 ≤ n ∧ 50 ≤ n then
        some (if tail_mean closes 200 < tail_mean closes 50 then 1 else 0)
      else none,
    rsi_14 := calculate_rsi closes 14,
    volatility_30d_sq :=
      if 30 ≤ n then some (sample_var (tail_window (pct_change closes) 30) * 10000)
      else none,
    avg_volume_20d := if 20 ≤ n then some (tail_mean vols 20) else none,
    volume_ratio :=
      if 20 ≤ n ∧ 0 < tail_mean vols 20 then
        some ((vols.getLast?).getD 0 / tail_mean vols 20)
      else none }

/-- Benchmark dict built by fetcher.fetch_benchmark_data: the four return
horizons of each of the two reference indices, every key optional (a failed
index fetch leaves its keys missing, a missing reference price leaves the
value None). -/
structure Benchmarks where
  ibov_change_1d : Option ℚ
  ibov_change_1w : Option ℚ
  ibov_change_1m : Option ℚ
  ibov_change_ytd : Option ℚ
  sp500_change_1d : Option ℚ
  sp500_change_1w : Option ℚ
  sp500_change_1m : Option ℚ
  sp500_change_ytd : Option ℚ
deriving DecidableEq, Inhabited

/-- Result dict of fetcher.calculate_benchmark_comparison: the benchmark keys
copied through plus the six outperformance keys the source may add. The
source computes no 1-week outperformance key. -/
structure BenchmarkComparison where
  ibov_change_1d : Option ℚ
  ibov_change_1w : Option ℚ
  ibov_change_1m : Option ℚ
  ibov_change_ytd : Option ℚ
  sp500_change_1d : Option ℚ
  sp500_change_1w : Option ℚ
  sp500_change_1m : Option ℚ
  sp500_change_ytd : Option ℚ
  vs_ibov_1d : Option ℚ
  vs_ibov_1m : Option ℚ
  vs_ibov_ytd : Option ℚ
  vs_sp500_1d : Option ℚ
  vs_sp500_1m : Option ℚ
  vs_sp500_ytd : Option ℚ
deriving DecidableEq, Inhabited

/-- Difference under the Python truthiness guard of the source, which writes
"if quote_data.get(k) and benchmarks.get(k2)": a missing operand and a present
operand equal to 0 both fail the guard. -/
def guarded_diff (a b : Option ℚ) : Option ℚ :=
  if truthy a && truthy b then some (a.getD 0 - b.getD 0) else none

/-- Embeds fetcher.calculate_benchmark_comparison; the three change arguments
are the keys the source reads from quote_data. -/
def calculate_benchmark_comparison (change_1d change_1m change_ytd : Option ℚ)
    (b : Benchmarks) : BenchmarkComparison :=
  { ibov_change_1d := b.ibov_change_1d,
    ibov_change_1w := b.ibov_change_1w,
    ibov_change_1m := b.ibov_change_1m,
    ibov_change_ytd := b.ibov_change_ytd,
    sp500_change_1d := b.sp500_change_1d,
    sp500_change_1w := b.sp500_change_1w,
    sp500_change_1m := b.sp500_change_1m,
    sp500_change_ytd := b.sp500_change_ytd,
    vs_ibov_1d := guarded_diff change_1d b.ibov_change_1d,
    vs_ibov_1m := guarded_diff change_1m b.ibov_change_1m,
    vs_ibov_ytd := guarded_diff change_ytd b.ibov_change_ytd,
    vs_sp500_1d := guarded_diff change_1d b.sp500_change_1d,
    vs_sp500_1m := guarded_diff change_1m b.sp500_change_1m,
    vs_sp500_ytd := guarded_diff change_ytd b.sp500_change_ytd }

/-- Keys fetcher.calculate_signals reads from the merged quote dict; every one
may be absent (dict .get). The week_52_high key is read by the source but
never used. -/
structure SignalInput where
  rsi_14 : Option ℚ
  pct_from_52w_high : Option ℚ
  week_52_high : Option ℚ
  week_52_low : Option ℚ
  close : Option ℚ
  volume_ratio : Option ℚ
  ma_50_above_200 : Option ℤ
  above_ma_50 : Option ℤ
  above_ma_200 : Option ℤ
deriving DecidableEq, Inhabited

/-- Signal keys fetcher.calculate_signals writes: the cross flags are written
unconditionally, the other flags only when their inputs are present, and the
summary always. -/
structure Signals where
  signal_rsi_oversold : Option ℤ
  signal_rsi_overbought : Option ℤ
  signal_52w_high : Option ℤ
  signal_52w_low : Option ℤ
  signal_volume_spike : Option ℤ
  signal_golden_cross : Option ℤ
  signal_death_cross : Option ℤ
  signal_summary : String
deriving DecidableEq, Inhabited

/-- RSI-oversold flag of calculate_signals: set when RSI is present and
below 30. -/
def signal_rsi_oversold_of (q : SignalInput) : Option ℤ :=
  q.rsi_14.map (fun r => if r < 30 then 1 else 0)

/-- RSI-overbought flag of calculate_signals: set when RSI is present and
above 70. -/
def signal_rsi_overbought_of (q : SignalInput) : Option ℤ :=
  q.rsi_14.map (fun r => if 70 < r then 1 else 0)

/-- Near-52-week-high flag of calculate_signals: set when the percent distance
from the high is present and at least -5. -/
def signal_52w_high_of (q : SignalInput) : Option ℤ :=
  q.pct_from_52w_high.map (fun p => if -5 ≤ p then 1 else 0)

/-- Near-52-week-low flag of calculate_signals, behind the Python truthiness
guard "if week_52_low and close". -/
def signal_52w_low_of (q : SignalInput) : Option ℤ :=
  match q.week_52_low, q.close with
  | some wl, some c =>
      if wl ≠ 0 ∧ c ≠ 0 then some (if (c - wl) / wl * 100 ≤ 5 then 1 else 0)
      else none
  | _, _ => none

/-- Volume-spike flag of calculate_signals: set when the volume ratio is
present and at least 2. -/
def signal_volume_spike_of (q : SignalInput) : Option ℤ :=
  q.volume_ratio.map (fun v => if 2 ≤ v then 1 else 0)

/-- Golden-cross value of calculate_signals: 1 exactly when the
MA50-above-MA200 boolean equals 1 (an absent boolean gives 0). -/
def signal_golden_cross_of (q : SignalInput) : ℤ :=
  if q.ma_50_above_200 = some 1 then 1 else 0

/-- Death-cross value of calculate_signals: 1 exactly when the
MA50-above-MA200 boolean equals 0 (an absent boolean gives 0). -/
def signal_death_cross_of (q : SignalInput) : ℤ :=
  if q.ma_50_above_200 = some 0 then 1 else 0

/-- Bullish vote count of calculate_signals: dict .get with default 0 over the
bullish flags, plus the two above-MA equality tests. -/
def bullish_count (q : SignalInput) : ℤ :=
  (signal_rsi_oversold_of q).getD 0 + (signal_52w_low_of q).getD 0
    + signal_golden_cross_of q
    + (if q.above_ma_50 = some 1 then 1 else 0)
    + (if q.above_ma_200 = some 1 then 1 else 0)

/-- Bearish vote count of calculate_signals: dict .get with default 0 over the
bearish flags, plus the two equality-with-0 tests on the above-MA booleans. -/
def bearish_count (q : SignalInput) : ℤ :=
  (signal_rsi_overbought_of q).getD 0 + (signal_52w_high_of q).getD 0
    + signal_death_cross_of q
    + (if q.above_ma_50 = some 0 then 1 else 0)
    + (if q.above_ma_200 = some 0 then 1 else 0)

/-- Embeds fetcher.calculate_signals. -/
def calculate_signals (q : SignalInput) : Signals :=
  { signal_rsi_oversold := signal_rsi_oversold_of q,
    signal_rsi_overbought := signal_rsi_overbought_of q,
    signal_52w_high := signal_52w_high_of q,
    signal_52w_low := signal_52w_low_of q,
    signal_volume_spike := signal_volume_spike_of q,
    signal_golden_cross := some (signal_golden_cross_of q),
    signal_death_cross := some (signal_death_cross_of q),
    signal_summary :=
      if 3 ≤ bullish_count q ∧ bearish_count q < bullish_count q then "bullish"
      else if 3 ≤ bearish_count q ∧ bullish_count q < bearish_count q then
        "bearish"
      else "neutral" }

/-- Vote of an optional flag as the specification counts it: 1 when present
and set, 0 when clear or absent. -/
def vote (o : Option ℤ) : ℤ := if o = some 1 then 1 else 0

/-- Vote for the negation of an optional boolean: 1 when present and clear,
0 when set or absent. -/
def anti_vote (o : Option ℤ) : ℤ := if o = some 0 then 1 else 0

/-- Modelled from the spec: bullish votes counted over the produced flags
rsi-oversold, near-52w-low, golden-cross and the two above-MA booleans. -/
def spec_bullish_votes (q : SignalInput) : ℤ :=
  vote (calculate_signals q).signal_rsi_oversold
    + vote (calculate_signals q).signal_52w_low
    + vote (calculate_signals q).signal_golden_cross
    + vote q.above_ma_50 + vote q.above_ma_200

/-- Modelled from the spec: bearish votes counted over the produced flags
rsi-overbought, near-52w-high, death-cross and the negations of the two
above-MA booleans. -/
def spec_bearish_votes (q : SignalInput) : ℤ :=
  vote (calculate_signals q).signal_rsi_overbought
    + vote (calculate_signals q).signal_52w_high
    + vote (calculate_signals q).signal_death_cross
    + anti_vote q.above_ma_50 + anti_vote q.above_ma_200

/-- Fundamentals bundle returned by fetcher.fetch_fundamental_data: a field
extraction from the external info dict, every entry optional. -/
structure Fundamentals where
  market_cap : Option ℚ
  pe_ratio : Option ℚ
  forward_pe : Option ℚ
  pb_ratio : Option ℚ
  dividend_yield : Option ℚ
  eps : Option ℚ
  beta : Option ℚ
  week_52_high : Option ℚ
  week_52_low : Option ℚ
  profit_margin : Option ℚ
  roe : Option ℚ
  debt_to_equity : Option ℚ
  analyst_rating : Option String
  target_price : Option ℚ
  num_analysts : Option ℤ
deriving DecidableEq, Inhabited

/-- The merged quote dict built by fetcher.fetch_quote_with_history and then
extended by the benchmark merge and the sentiment phase; keys a stage has not
written are absent. The dict keys open, high, low and the price keys map to
the like-named fields; volatility_30d is carried as its square. -/
structure QuoteData where
  ticker : String
  open_price : Option ℚ
  high_price : Option ℚ
  low_price : Option ℚ
  close : ℚ
  volume : Option ℚ
  date : ℤ
  price_1d : Option ℚ
  price_1w : Option ℚ
  price_1m : Option ℚ
  price_ytd : Option ℚ
  price_5y : Option ℚ
  price_all : Option ℚ
  change_1d : Option ℚ
  change_1w : Option ℚ
  change_1m : Option ℚ
  change_ytd : Option ℚ
  change_5y : Option ℚ
  change_all : Option ℚ
  pct_from_52w_high : Option ℚ
  market_cap : Option ℚ
  pe_ratio : Option ℚ
  forward_pe : Option ℚ
  pb_ratio : Option ℚ
  dividend_yield : Option ℚ
  eps : Option ℚ
  beta : Option ℚ
  week_52_high : Option ℚ
  week_52_low : Option ℚ
  profit_margin : Option ℚ
  roe : Option ℚ
  debt_to_equity : Option ℚ
  analyst_rating : Option String
  target_price : Option ℚ
  num_analysts : Option ℤ
  ma_50 : Option ℚ
  ma_200 : Option ℚ
  rsi_14 : Option ℚ
  above_ma_50 : Option ℤ
  above_ma_200 : Option ℤ
  ma_50_above_200 : Option ℤ
  volatility_30d_sq : Option ℚ
  avg_volume_20d : Option ℚ
  volume_ratio : Option ℚ
  signal_rsi_oversold : Option ℤ
  signal_rsi_overbought : Option ℤ
  signal_52w_high : Option ℤ
  signal_52w_low : Option ℤ
  signal_volume_spike : Option ℤ
  signal_golden_cross : Option ℤ
  signal_death_cross : Option ℤ
  signal_summary : Option String
  ibov_change_1d : Option ℚ
  ibov_change_1w : Option ℚ
  ibov_change_1m : Option ℚ
  ibov_change_ytd : Option ℚ
  sp500_change_1d : Option ℚ
  sp500_change_1w : Option ℚ
  sp500_change_1m : Option ℚ
  sp500_change_ytd : Option ℚ
  vs_ibov_1d : Option ℚ
  vs_ibov_1m : Option ℚ
  vs_ibov_ytd : Option ℚ
  vs_sp500_1d : Option ℚ
  vs_sp500_1m : Option ℚ
  vs_sp500_ytd : Option ℚ
  news_sentiment_pt : Option ℚ
  news_sentiment_en : Option ℚ
  news_sentiment_combined : Option ℚ
  news_count_pt : Option ℤ
  news_count_en : Option ℤ
  news_headline_pt : Option String
  news_headline_en : Option String
  news_sentiment_label : Option String
deriving DecidableEq, Inhabited

/-- Embeds fetcher.fetch_quote_with_history over an already-fetched history
and fundamentals bundle (the network fetch is the oracle of
fetch_single_asset). None on an empty series. The year_start function models
date(today.year, 1, 1) on ordinal day numbers, and 1825 days is the 5-year
offset 5 times 365. News keys are written only by the later sentiment phase,
so they start absent, exactly as in the dict. -/
def fetch_quote_with_history (ticker : String) (hist : List Bar)
    (fund : Fundamentals) (year_start : ℤ → ℤ) : Option QuoteData :=
  match hist.getLast? with
  | none => none
  | some latest =>
    let today := latest.date
    let current_price := latest.close
    let price_1d := get_historical_price hist (today - 1)
    let price_1w := get_historical_price hist (today - 7)
    let price_1m := get_historical_price hist (today - 30)
    let price_ytd := get_historical_price hist (year_start today)
    let price_5y := get_historical_price hist (today - 1825)
    let price_all := hist.head?.map Bar.close
    let tech := calculate_technical_indicators hist current_price
    let pct52 : Option ℚ :=
      match fund.week_52_high with
      | some wh => if 0 < wh then some ((current_price - wh) / wh * 100) else none
      | none => none
    let sigs := calculate_signals
      { rsi_14 := tech.rsi_14, pct_from_52w_high := pct52,
        week_52_high := fund.week_52_high, week_52_low := fund.week_52_low,
        close := some current_price, volume_ratio := tech.volume_ratio,
        ma_50_above_200 := tech.ma_50_above_200,
        above_ma_50 := tech.above_ma_50, above_ma_200 := tech.above_ma_200 }
    some
      { ticker := ticker,
        open_price := nonzero_opt latest.open_price,
        high_price := nonzero_opt latest.high_price,
        low_price := nonzero_opt latest.low_price,
        close := current_price,
        volume := nonzero_opt latest.volume,
        date := today,
        price_1d := price_1d, price_1w := price_1w, price_1m := price_1m,
        price_ytd := price_ytd, price_5y := price_5y, price_all := price_all,
        change_1d := calculate_change_percent current_price price_1d,
        change_1w := calculate_change_percent current_price price_1w,
        change_1m := calculate_change_percent current_price price_1m,
        change_ytd := calculate_change_percent current_price price_ytd,
        change_5y := calculate_change_percent current_price price_5y,
        change_all := calculate_change_percent current_price price_all,
        pct_from_52w_high := pct52,
        market_cap := fund.market_cap, pe_ratio := fund.pe_ratio,
        forward_pe := fund.forward_pe, pb_ratio := fund.pb_ratio,
        dividend_yield := fund.dividend_yield, eps := fund.eps,
        beta := fund.beta, week_52_high := fund.week_52_high,
        week_52_low := fund.week_52_low, profit_margin := fund.profit_margin,
        roe := fund.roe, debt_to_equity := fund.debt_to_equity,
        analyst_rating := fund.analyst_rating, target_price := fund.target_price,
        num_analysts := fund.num_analysts,
        ma_50 := tech.ma_50, ma_200 := tech.ma_200, rsi_14 := tech.rsi_14,
        above_ma_50 := tech.above_ma_50, above_ma_200 := tech.above_ma_200,
        ma_50_above_200 := tech.ma_50_above_200,
        volatility_30d_sq := tech.volatility_30d_sq,
        avg_volume_20d := tech.avg_volume_20d, volume_ratio := tech.volume_ratio,
        signal_rsi_oversold := sigs.signal_rsi_oversold,
        signal_rsi_overbought := sigs.signal_rsi_overbought,
        signal_52w_high := sigs.signal_52w_high,
        signal_52w_low := sigs.signal_52w_low,
        signal_volume_spike := sigs.signal_volume_spike,
        signal_golden_cross := sigs.signal_golden_cross,
        signal_death_cross := sigs.signal_death_cross,
        signal_summary := some sigs.signal_summary,
        ibov_change_1d := none, ibov_change_1w := none, ibov_change_1m := none,
        ibov_change_ytd := none, sp500_change_1d := none,
        sp500_change_1w := none, sp500_change_1m := none,
        sp500_change_ytd := none,
        vs_ibov_1d := none, vs_ibov_1m := none, vs_ibov_ytd := none,
        vs_sp500_1d := none, vs_sp500_1m := none, vs_sp500_ytd := none,
        news_sentiment_pt := none, news_sentiment_en := none,
        news_sentiment_combined := none, news_count_pt := none,
        news_count_en := none, news_headline_pt := none,
        news_headline_en := none, news_sentiment_label := none }

/-- quote_data.update(benchmark_comparison): writes the fourteen keys of the
comparison dict into the quote dict. -/
def apply_benchmark (qd : QuoteData) (bc : BenchmarkComparison) : QuoteData :=
  { qd with
    ibov_change_1d := bc.ibov_change_1d, ibov_change_1w := bc.ibov_change_1w,
    ibov_change_1m := bc.ibov_change_1m, ibov_change_ytd := bc.ibov_change_ytd,
    sp500_change_1d := bc.sp500_change_1d, sp500_change_1w := bc.sp500_change_1w,
    sp500_change_1m := bc.sp500_change_1m, sp500_change_ytd := bc.sp500_change_ytd,
    vs_ibov_1d := bc.vs_ibov_1d, vs_ibov_1m := bc.vs_ibov_1m,
    vs_ibov_ytd := bc.vs_ibov_ytd, vs_sp500_1d := bc.vs_sp500_1d,
    vs_sp500_1m := bc.vs_sp500_1m, vs_sp500_ytd := bc.vs_sp500_ytd }

/-- Static catalog entry for one instrument (assets.py). -/
structure AssetInfo where
  name : String
  sector : String
  unit : String
deriving DecidableEq, Inhabited

/-- Record fetch_single_asset returns for one successfully fetched asset. -/
structure FetchResult where
  ticker : String
  info : AssetInfo
  asset_type : String
  is_brazilian : Bool
  quote_data : QuoteData
  price_brl : ℚ
  price_usd : ℚ
deriving DecidableEq, Inhabited

/-- One asset of the phase-2 task list of fetch_all_quotes. -/
structure AssetSpec where
  ticker : String
  info : AssetInfo
  asset_type : String
  is_brazilian : Bool
deriving DecidableEq, Inhabited

/-- The price conversion of fetcher.fetch_single_asset as a (BRL, USD) pair:
a Brazilian stock keeps its close in BRL and divides by the USD/BRL rate, the
currency pair fixes USD at 1, every other class (us_stock, commodity, crypto)
keeps its close in USD and multiplies by the rate. -/
def asset_prices (asset_type : String) (close : ℚ) (usd_brl : ℚ) : ℚ × ℚ :=
  if asset_type = "stock" then (close, close / usd_brl)
  else if asset_type = "currency" then (close, 1)
  else (close * usd_brl, close)

/-- Embeds fetcher.fetch_single_asset. The oracle maps a ticker to its fetched
history and fundamentals; a none oracle value models a raised fetch error
(caught by the source and converted to None), an empty history the no-data
early return. -/
def fetch_single_asset (oracle : String → Option (List Bar × Fundamentals))
    (year_start : ℤ → ℤ) (ticker : String) (info : AssetInfo)
    (asset_type : String) (is_brazilian : Bool) (usd_brl : ℚ)
    (benchmarks : Benchmarks) : Option FetchResult :=
  match oracle ticker with
  | none => none
  | some (hist, fund) =>
    match fetch_quote_with_history ticker hist fund year_start with
    | none => none
    | some qd0 =>
      let qd := apply_benchmark qd0
        (calculate_benchmark_comparison qd0.change_1d qd0.change_1m
          qd0.change_ytd benchmarks)
      some
        { ticker := ticker, info := info, asset_type := asset_type,
          is_brazilian := is_brazilian, quote_data := qd,
          price_brl := (asset_prices asset_type qd.close usd_brl).1,
          price_usd := (asset_prices asset_type qd.close usd_brl).2 }

/-- Phase-2 result list of fetcher.fetch_all_quotes: one task per catalog
asset, a failed task contributing nothing. Thread completion order only
permutes this list, so catalog order stands in for as_completed order;
membership and counts are order-independent. -/
def phase2_results (oracle : String → Option (List Bar × Fundamentals))
    (year_start : ℤ → ℤ) (assets : List AssetSpec) (usd_brl : ℚ)
    (benchmarks : Benchmarks) : List FetchResult :=
  assets.filterMap (fun a =>
    fetch_single_asset oracle year_start a.ticker a.info a.asset_type
      a.is_brazilian usd_brl benchmarks)

/-- Success and error counters of fetcher.fetch_all_quotes, its return value:
one increment per phase-2 task, success for a produced record, error for None
(as_completed yields the counted events in an unconstrained order, which the
totals do not depend on). -/
def fetch_all_quotes_counts (oracle : String → Option (List Bar × Fundamentals))
    (year_start : ℤ → ℤ) (usd_brl : ℚ) (benchmarks : Benchmarks) :
    List AssetSpec → ℕ × ℕ
  | [] => (0, 0)
  | a :: rest =>
    match fetch_single_asset oracle year_start a.ticker a.info a.asset_type
        a.is_brazilian usd_brl benchmarks,
      fetch_all_quotes_counts oracle year_start usd_brl benchmarks rest with
    | some _, acc => (acc.1 + 1, acc.2)
    | none, acc => (acc.1, acc.2 + 1)

/-- Failure of the fetch for one ticker: a raised error (none) or an empty
price series. -/
def fetch_fails (oracle : String → Option (List Bar × Fundamentals))
    (t : String) : Prop :=
  oracle t = none ∨ ∃ f, oracle t = some ([], f)

/-- One row of the quotes table of models.Quote: the surrogate id is omitted,
rows are keyed by the unique constraint (asset_id, quote_date); every nullable
column is an Option and volatility_30d is carried as its square. The sector
columns exist in the table but are never written by fetcher.save_quote. -/
structure QuoteRow where
  asset_id : ℕ
  price_usd : Option ℚ
  price_brl : ℚ
  open_price : Option ℚ
  high_price : Option ℚ
  low_price : Option ℚ
  volume : Option ℚ
  change_1d : Option ℚ
  change_1w : Option ℚ
  change_1m : Option ℚ
  change_ytd : Option ℚ
  change_5y : Option ℚ
  change_all : Option ℚ
  price_1d_ago : Option ℚ
  price_1w_ago : Option ℚ
  price_1m_ago : Option ℚ
  price_ytd : Option ℚ
  price_5y_ago : Option ℚ
  price_all_time : Option ℚ
  market_cap : Option ℚ
  pe_ratio : Option ℚ
  forward_pe : Option ℚ
  pb_ratio : Option ℚ
  dividend_yield : Option ℚ
  eps : Option ℚ
  beta : Option ℚ
  week_52_high : Option ℚ
  week_52_low : Option ℚ
  pct_from_52w_high : Option ℚ
  ma_50 : Option ℚ
  ma_200 : Option ℚ
  rsi_14 : Option ℚ
  above_ma_50 : Option ℤ
  above_ma_200 : Option ℤ
  ma_50_above_200 : Option ℤ
  profit_margin : Option ℚ
  roe : Option ℚ
  debt_to_equity : Option ℚ
  analyst_rating : Option String
  target_price : Option ℚ
  num_analysts : Option ℤ
  ibov_change_1d : Option ℚ
  ibov_change_1w : Option ℚ
  ibov_change_1m : Option ℚ
  ibov_change_ytd : Option ℚ
  sp500_change_1d : Option ℚ
  sp500_change_1w : Option ℚ
  sp500_change_1m : Option ℚ
  sp500_change_ytd : Option ℚ
  vs_ibov_1d : Option ℚ
  vs_ibov_1m : Option ℚ
  vs_ibov_ytd : Option ℚ
  vs_sp500_1d : Option ℚ
  vs_sp500_1m : Option ℚ
  vs_sp500_ytd : Option ℚ
  sector_avg_pe : Option ℚ
  sector_avg_change_1m : Option ℚ
  sector_avg_change_ytd : Option ℚ
  vs_sector_pe : Option ℚ
  vs_sector_1m : Option ℚ
  vs_sector_ytd : Option ℚ
  signal_golden_cross : Option ℤ
  signal_death_cross : Option ℤ
  signal_rsi_oversold : Option ℤ
  signal_rsi_overbought : Option ℤ
  signal_52w_high : Option ℤ
  signal_52w_low : Option ℤ
  signal_volume_spike : Option ℤ
  signal_summary : Option String
  volatility_30d_sq : Option ℚ
  avg_volume_20d : Option ℚ
  volume_ratio : Option ℚ
  news_sentiment_pt : Option ℚ
  news_sentiment_en : Option ℚ
  news_sentiment_combined : Option ℚ
  news_count_pt : Option ℤ
  news_count_en : Option ℤ
  news_headline_pt : Option String
  news_headline_en : Option String
  news_sentiment_label : Option String
  quote_date : ℤ
  fetched_at : ℤ
deriving DecidableEq, Inhabited

/-- Row built by the create branch of fetcher.save_quote: every column from
quote_data (dict .get), the sector columns left at their null default, and
fetched_at from the column default datetime.utcnow evaluated at insert time,
passed here as now. -/
def new_quote_row (aid : ℕ) (qdate : ℤ) (qd : QuoteData) (pb : ℚ)
    (pu : Option ℚ) (now : ℤ) : QuoteRow :=
  { asset_id := aid,
    price_usd := pu,
    price_brl := pb,
    open_price := qd.open_price,
    high_price := qd.high_price,
    low_price := qd.low_price,
    volume := qd.volume,
    change_1d := qd.change_1d,
    change_1w := qd.change_1w,
    change_1m := qd.change_1m,
    change_ytd := qd.change_ytd,
    change_5y := qd.change_5y,
    change_all := qd.change_all,
    price_1d_ago := qd.price_1d,
    price_1w_ago := qd.price_1w,
    price_1m_ago := qd.price_1m,
    price_ytd := qd.price_ytd,
    price_5y_ago := qd.price_5y,
    price_all_time := qd.price_all,
    market_cap := qd.market_cap,
    pe_ratio := qd.pe_ratio,
    forward_pe := qd.forward_pe,
    pb_ratio := qd.pb_ratio,
    dividend_yield := qd.dividend_yield,
    eps := qd.eps,
    beta := qd.beta,
    week_52_high := qd.week_52_high,
    week_52_low := qd.week_52_low,
    pct_from_52w_high := qd.pct_from_52w_high,
    ma_50 := qd.ma_50,
    ma_200 := qd.ma_200,
    rsi_14 := qd.rsi_14,
    above_ma_50 := qd.above_ma_50,
    above_ma_200 := qd.above_ma_200,
    ma_50_above_200 := qd.ma_50_above_200,
    profit_margin := qd.profit_margin,
    roe := qd.roe,
    debt_to_equity := qd.debt_to_equity,
    analyst_rating := qd.analyst_rating,
    target_price := qd.target_price,
    num_analysts := qd.num_analysts,
    ibov_change_1d := qd.ibov_change_1d,
    ibov_change_1w := qd.ibov_change_1w,
    ibov_change_1m := qd.ibov_change_1m,
    ibov_change_ytd := qd.ibov_change_ytd,
    sp500_change_1d := qd.sp500_change_1d,
    sp500_change_1w := qd.sp500_change_1w,
    sp500_change_1m := qd.sp500_change_1m,
    sp500_change_ytd := qd.sp500_change_ytd,
    vs_ibov_1d := qd.vs_ibov_1d,
    vs_ibov_1m := qd.vs_ibov_1m,
    vs_ibov_ytd := qd.vs_ibov_ytd,
    vs_sp500_1d := qd.vs_sp500_1d,
    vs_sp500_1m := qd.vs_sp500_1m,
    vs_sp500_ytd := qd.vs_sp500_ytd,
    sector_avg_pe := none,
    sector_avg_change_1m := none,
    sector_avg_change_ytd := none,
    vs_sector_pe := none,
    vs_sector_1m := none,
    vs_sector_ytd := none,
    signal_golden_cross := qd.signal_golden_cross,
    signal_death_cross := qd.signal_death_cross,
    signal_rsi_oversold := qd.signal_rsi_oversold,
    signal_rsi_overbought := qd.signal_rsi_overbought,
    signal_52w_high := qd.signal_52w_high,
    signal_52w_low := qd.signal_52w_low,
    signal_volume_spike := qd.signal_volume_spike,
    signal_summary := qd.signal_summary,
    volatility_30d_sq := qd.volatility_30d_sq,
    avg_volume_20d := qd.avg_volume_20d,
    volume_ratio := qd.volume_ratio,
    news_sentiment_pt := qd.news_sentiment_pt,
    news_sentiment_en := qd.news_sentiment_en,
    news_sentiment_combined := qd.news_sentiment_combined,
    news_count_pt := qd.news_count_pt,
    news_count_en := qd.news_count_en,
    news_headline_pt := qd.news_headline_pt,
    news_headline_en := qd.news_headline_en,
    news_sentiment_label := qd.news_sentiment_label,
    quote_date := qdate,
    fetched_at := now }

/-- Row mutation of the update branch of fetcher.save_quote: the key columns
are untouched (they matched the query filter), the sector columns are not
assigned, every other column is overwritten from quote_data, and fetched_at is
set to datetime.utcnow, passed here as now. -/
def update_quote_row (r : QuoteRow) (qd : QuoteData) (pb : ℚ) (pu : Option ℚ)
    (now : ℤ) : QuoteRow :=
  { asset_id := r.asset_id,
    price_usd := pu,
    price_brl := pb,
    open_price := qd.open_price,
    high_price := qd.high_price,
    low_price := qd.low_price,
    volume := qd.volume,
    change_1d := qd.change_1d,
    change_1w := qd.change_1w,
    change_1m := qd.change_1m,
    change_ytd := qd.change_ytd,
    change_5y := qd.change_5y,
    change_all := qd.change_all,
    price_1d_ago := qd.price_1d,
    price_1w_ago := qd.price_1w,
    price_1m_ago := qd.price_1m,
    price_ytd := qd.price_ytd,
    price_5y_ago := qd.price_5y,
    price_all_time := qd.price_all,
    market_cap := qd.market_cap,
    pe_ratio := qd.pe_ratio,
    forward_pe := qd.forward_pe,
    pb_ratio := qd.pb_ratio,
    dividend_yield := qd.dividend_yield,
    eps := qd.eps,
    beta := qd.beta,
    week_52_high := qd.week_52_high,
    week_52_low := qd.week_52_low,
    pct_from_52w_high := qd.pct_from_52w_high,
    ma_50 := qd.ma_50,
    ma_200 := qd.ma_200,
    rsi_14 := qd.rsi_14,
    above_ma_50 := qd.above_ma_50,
    above_ma_200 := qd.above_ma_200,
    ma_50_above_200 := qd.ma_50_above_200,
    profit_margin := qd.profit_margin,
    roe := qd.roe,
    debt_to_equity := qd.debt_to_equity,
    analyst_rating := qd.analyst_rating,
    target_price := qd.target_price,
    num_analysts := qd.num_analysts,
    ibov_change_1d := qd.ibov_change_1d,
    ibov_change_1w := qd.ibov_change_1w,
    ibov_change_1m := qd.ibov_change_1m,
    ibov_change_ytd := qd.ibov_change_ytd,
    sp500_change_1d := qd.sp500_change_1d,
    sp500_change_1w := qd.sp500_change_1w,
    sp500_change_1m := qd.sp500_change_1m,
    sp500_change_ytd := qd.sp500_change_ytd,
    vs_ibov_1d := qd.vs_ibov_1d,
    vs_ibov_1m := qd.vs_ibov_1m,
    vs_ibov_ytd := qd.vs_ibov_ytd,
    vs_sp500_1d := qd.vs_sp500_1d,
    vs_sp500_1m := qd.vs_sp500_1m,
    vs_sp500_ytd := qd.vs_sp500_ytd,
    sector_avg_pe := r.sector_avg_pe,
    sector_avg_change_1m := r.sector_avg_change_1m,
    sector_avg_change_ytd := r.sector_avg_change_ytd,
    vs_sector_pe := r.vs_sector_pe,
    vs_sector_1m := r.vs_sector_1m,
    vs_sector_ytd := r.vs_sector_ytd,
    signal_golden_cross := qd.signal_golden_cross,
    signal_death_cross := qd.signal_death_cross,
    signal_rsi_oversold := qd.signal_rsi_oversold,
    signal_rsi_overbought := qd.signal_rsi_overbought,
    signal_52w_high := qd.signal_52w_high,
    signal_52w_low := qd.signal_52w_low,
    signal_volume_spike := qd.signal_volume_spike,
    signal_summary := qd.signal_summary,
    volatility_30d_sq := qd.volatility_30d_sq,
    avg_volume_20d := qd.avg_volume_20d,
    volume_ratio := qd.volume_ratio,
    news_sentiment_pt := qd.news_sentiment_pt,
    news_sentiment_en := qd.news_sentiment_en,
    news_sentiment_combined := qd.news_sentiment_combined,
    news_count_pt := qd.news_count_pt,
    news_count_en := qd.news_count_en,
    news_headline_pt := qd.news_headline_pt,
    news_headline_en := qd.news_headline_en,
    news_sentiment_label := qd.news_sentiment_label,
    quote_date := r.quote_date,
    fetched_at := now }

/-- Row key of the unique_asset_date constraint of models.Quote. -/
def quote_key (r : QuoteRow) : ℕ × ℤ := (r.asset_id, r.quote_date)

/-- The store invariant: no two rows share (asset_id, quote_date). -/
def keys_nodup (db : List QuoteRow) : Prop := (db.map quote_key).Nodup

/-- Some row with the given key exists. -/
def has_key (db : List QuoteRow) (aid : ℕ) (d : ℤ) : Prop :=
  (aid, d) ∈ db.map quote_key

instance (db : List QuoteRow) (aid : ℕ) (d : ℤ) : Decidable (has_key db aid d) :=
  inferInstanceAs (Decidable ((aid, d) ∈ db.map quote_key))

/-- The rows carrying the given key, in store order. -/
def rows_with_key (db : List QuoteRow) (aid : ℕ) (d : ℤ) : List QuoteRow :=
  db.filter (fun r => r.asset_id = aid ∧ r.quote_date = d)

/-- Embeds fetcher.save_quote: query the first row with the key
(asset, quote date); update its columns in place when found, otherwise append
a new row (db.add). -/
def save_quote (db : List QuoteRow) (aid : ℕ) (qd : QuoteData) (pb : ℚ)
    (pu : Option ℚ) (now : ℤ) : List QuoteRow :=
  match db with
  | [] => [new_quote_row aid qd.date qd pb pu now]
  | r :: rest =>
    if r.asset_id = aid ∧ r.quote_date = qd.date then
      update_quote_row r qd pb pu now :: rest
    else
      r :: save_quote rest aid qd pb pu now

/-- Concrete 30-session flat price history sitting on the volatility
boundary. -/
def hist30 : List Bar :=
  List.replicate 30
    { date := 0, open_price := 1, high_price := 1, low_price := 1, close := 1,
      volume := 1 }


/-- Benchmarks dict with only the Ibovespa 1-day change present, at value 1. -/
def bench_cx : Benchmarks :=
  { ibov_change_1d := some 1, ibov_change_1w := none, ibov_change_1m := none,
    ibov_change_ytd := none, sp500_change_1d := none, sp500_change_1w := none,
    sp500_change_1m := none, sp500_change_ytd := none }


/-- Signal input with every key absent; in particular no MA50-above-MA200
boolean. -/
def sig_in_empty : SignalInput :=
  { rsi_14 := none, pct_from_52w_high := none, week_52_high := none,
    week_52_low := none, close := none, volume_ratio := none,
    ma_50_above_200 := none, above_ma_50 := none, above_ma_200 := none }

/-- Fundamentals bundle with every field absent, for the concrete witnesses. -/
def fund0 : Fundamentals := default

/-- Benchmarks dict with every key absent, for the concrete witnesses. -/
def bench0 : Benchmarks := default

/-- Catalog entry metadata used by the concrete witnesses. -/
def info0 : AssetInfo := default

/-- One-session price history used by the concrete witnesses. -/
def bar1 : Bar :=
  { date := 10, open_price := 1, high_price := 1, low_price := 1, close := 4,
    volume := 1 }

/-- Oracle that serves the one-session history for every ticker. -/
def oracle_ok : String → Option (List Bar × Fundamentals) :=
  fun _ => some ([bar1], fund0)

/-- Oracle whose every fetch raises: models a provider outage. -/
def oracle_down : String → Option (List Bar × Fundamentals) := fun _ => none

/-- Degenerate calendar for the concrete witnesses: every year starts at
day 0. -/
def year_start0 : ℤ → ℤ := fun _ => 0

/-- One-asset catalog used by the concrete witnesses. -/
def assets1 : List AssetSpec :=
  [{ ticker := "PETR4.SA", info := info0, asset_type := "stock",
     is_brazilian := true }]

/-- The record the fetch produces on the witness oracle. -/
def result1 : FetchResult :=
  (fetch_single_asset oracle_ok year_start0 "PETR4.SA" info0 "stock" true 2
    bench0).getD default

/-- Empty quote dict (every optional key absent) for the store witnesses. -/
def qd0W : QuoteData := default

theorem find?_eq_head?_filter {α : Type} (p : α → Bool) (l : List α) :
    l.find? p = (l.filter p).head? := by
  induction l with
  | nil => rfl
  | cons a l ih =>
    by_cases h : p a
    · rw [List.find?_cons_of_pos _ h, List.filter_cons_of_pos h]; rfl
    · rw [List.find?_cons_of_neg _ h, List.filter_cons_of_neg h, ih]

theorem get_historical_price_eq_getLast (hist : List Bar) (target : ℤ) :
    get_historical_price hist target =
      ((hist.filter (fun b => b.date ≤ target)).getLast?).map Bar.close := by
  rw [get_historical_price, find?_eq_head?_filter, List.filter_reverse,
    List.head?_reverse]

/-- C4: the reference price for a horizon is the close of the latest session at
or before the target date, absent when no session is at or before it; the
derived return is present exactly when the reference is present and strictly
positive, and then equals (current - reference) / reference times 100. -/
theorem horizon_reference_and_return (hist : List Bar) (target : ℤ) (current : ℚ) :
    (get_historical_price hist target =
      ((hist.filter (fun b => b.date ≤ target)).getLast?).map Bar.close)
  ∧ (get_historical_price hist target = none ↔ ∀ b ∈ hist, target < b.date)
  ∧ (∀ v, calculate_change_percent current (get_historical_price hist target) = some v ↔
      ∃ p, get_historical_price hist target = some p ∧ 0 < p ∧
        v = (current - p) / p * 100) := by
  refine ⟨get_historical_price_eq_getLast hist target, ?_, ?_⟩
  · rw [get_historical_price_eq_getLast]
    simp only [Option.map_eq_none', List.getLast?_eq_none_iff,
      List.filter_eq_nil_iff]
    constructor
    · intro h b hb
      have := h b hb
      simpa using lt_of_not_le (by simpa using this)
    · intro h b hb
      simp [not_le.mpr (h b hb)]
  · intro v
    cases hp : get_historical_price hist target with
    | none => simp [calculate_change_percent]
    | some p =>
      simp only [calculate_change_percent, Option.some.injEq]
      constructor
      · intro h
        by_cases h0 : 0 < p
        · exact ⟨p, rfl, h0, by simpa [h0] using h.symm⟩
        · simp [h0] at h
      · rintro ⟨q, hq, h0, hv⟩
        obtain rfl : p = q := by simpa using hq
        simp [h0, hv]

theorem avg_gain_nonneg (prices : List ℚ) (period : ℕ) :
    0 ≤ avg_gain prices period := by
  refine div_nonneg (List.sum_nonneg ?_) (by positivity)
  intro x hx
  obtain ⟨d, _, rfl⟩ := List.mem_map.mp (List.mem_of_mem_drop hx)
  split <;> simp_all [le_of_lt]

theorem avg_loss_nonneg (prices : List ℚ) (period : ℕ) :
    0 ≤ avg_loss prices period := by
  refine div_nonneg (List.sum_nonneg ?_) (by positivity)
  intro x hx
  obtain ⟨d, _, rfl⟩ := List.mem_map.mp (List.mem_of_mem_drop hx)
  split <;> simp_all [le_of_lt, neg_nonneg]

/-- C5: RSI-14 is absent below 15 sessions; with at least 15 sessions it is
exactly 100 when the trailing average loss is zero, otherwise
100 - 100 / (1 + average gain / average loss), and it always lies in
the closed interval from 0 to 100. -/
theorem rsi_absent_short_bounded (prices : List ℚ) :
    (prices.length < 15 → calculate_rsi prices 14 = none)
  ∧ (15 ≤ prices.length →
      ∃ r, calculate_rsi prices 14 = some r ∧ 0 ≤ r ∧ r ≤ 100
        ∧ (avg_loss prices 14 = 0 → r = 100)
        ∧ (avg_loss prices 14 ≠ 0 →
            r = 100 - 100 / (1 + avg_gain prices 14 / avg_loss prices 14))) := by
  constructor
  · intro h
    simp [calculate_rsi, h]
  · intro h
    have hlen : ¬ prices.length < 14 + 1 := by omega
    by_cases hl : avg_loss prices 14 = 0
    · exact ⟨100, by simp [calculate_rsi, hlen, hl], by norm_num, by norm_num,
        fun _ => rfl, fun hc => absurd hl hc⟩
    · have hlpos : 0 < avg_loss prices 14 :=
        lt_of_le_of_ne (avg_loss_nonneg prices 14) (Ne.symm hl)
      have hg : 0 ≤ avg_gain prices 14 / avg_loss prices 14 :=
        div_nonneg (avg_gain_nonneg prices 14) (le_of_lt hlpos)
      have hfrac_pos : 0 < 100 / (1 + avg_gain prices 14 / avg_loss prices 14) :=
        div_pos (by norm_num) (by linarith)
      have hfrac_le : 100 / (1 + avg_gain prices 14 / avg_loss prices 14) ≤ 100 :=
        div_le_self (by norm_num) (by linarith)
      exact ⟨100 - 100 / (1 + avg_gain prices 14 / avg_loss prices 14),
        by simp [calculate_rsi, hlen, hl], by linarith, by linarith,
        fun hc => absurd hc hl, fun _ => rfl⟩

theorem label_cases (c : ℚ) :
    (news_sentiment_label (some c) = some "positive" ↔ 1/5 ≤ c)
  ∧ (news_sentiment_label (some c) = some "negative" ↔ c ≤ -(1/5))
  ∧ (news_sentiment_label (some c) = some "neutral" ↔ -(1/5) < c ∧ c < 1/5) := by
  simp only [news_sentiment_label]
  split_ifs with h1 h2 <;>
    refine ⟨⟨fun hs => ?_, fun hc => ?_⟩, ⟨fun hs => ?_, fun hc => ?_⟩,
      ⟨fun hs => ?_, fun hc => ?_⟩⟩ <;>
    first
      | assumption
      | rfl
      | (exact absurd rfl (by simp_all))
      | (constructor <;> linarith)
      | linarith
      | simp_all

theorem label_none_iff (o : Option ℚ) :
    news_sentiment_label o = none ↔ o = none := by
  cases o with
  | none => simp [news_sentiment_label]
  | some c =>
    simp only [news_sentiment_label]
    constructor
    · intro hs
      split_ifs at hs
    · intro h
      simp at h

/-- C6: the combined sentiment score is the 0.6/0.4 weighting when both
per-source scores are present, the sole present score when exactly one is,
absent when neither is; the label is positive exactly when the combined score
is present and at least 0.2, negative exactly when present and at most -0.2,
neutral exactly when present and strictly between, and absent exactly when the
combined score is absent. -/
theorem sentiment_combined_and_label (pt en : Option ℚ) :
    (∀ p e, pt = some p → en = some e →
        news_sentiment_combined pt en = some (p * (6/10) + e * (4/10)))
  ∧ (∀ p, pt = some p → en = none → news_sentiment_combined pt en = some p)
  ∧ (∀ e, pt = none → en = some e → news_sentiment_combined pt en = some e)
  ∧ (pt = none → en = none → news_sentiment_combined pt en = none)
  ∧ (news_sentiment_label (news_sentiment_combined pt en) = some "positive" ↔
      ∃ c, news_sentiment_combined pt en = some c ∧ 1/5 ≤ c)
  ∧ (news_sentiment_label (news_sentiment_combined pt en) = some "negative" ↔
      ∃ c, news_sentiment_combined pt en = some c ∧ c ≤ -(1/5))
  ∧ (news_sentiment_label (news_sentiment_combined pt en) = some "neutral" ↔
      ∃ c, news_sentiment_combined pt en = some c ∧ -(1/5) < c ∧ c < 1/5)
  ∧ (news_sentiment_label (news_sentiment_combined pt en) = none ↔
      news_sentiment_combined pt en = none) := by
  refine ⟨?_, ?_, ?_, ?_, ?_, ?_, ?_, label_none_iff _⟩
  · rintro p e rfl rfl; rfl
  · rintro p rfl rfl; rfl
  · rintro e rfl rfl; rfl
  · rintro rfl rfl; rfl
  all_goals
    cases hc : news_sentiment_combined pt en with
    | none => simp [news_sentiment_label]
    | some c =>
      have h := label_cases c
      constructor
      · intro hs
        first
          | exact ⟨c, rfl, h.1.mp hs⟩
          | exact ⟨c, rfl, h.2.1.mp hs⟩
          | exact ⟨c, rfl, h.2.2.mp hs⟩
      · rintro ⟨d, hd, hrest⟩
        obtain rfl : c = d := by simpa using hd
        first
          | exact h.1.mpr hrest
          | exact h.2.1.mpr hrest
          | exact h.2.2.mpr hrest

/-- C7 counterexample: a 30-session history provides only 29 daily returns,
yet the 30-day volatility field is present (the source guards on 30 sessions
of prices, not 30 returns). -/
theorem volatility_present_with_29_returns :
    (calculate_technical_indicators hist30 1).volatility_30d_sq ≠ none
  ∧ (pct_change (hist30.map Bar.close)).length = 29 := by
  constructor
  · decide
  · rfl

theorem pct_change_length (closes : List ℚ) :
    (pct_change closes).length = closes.length - 1 := by
  simp [pct_change]

/-- C7 amended: the 30-day volatility field is present exactly when the series
has at least 30 sessions, which yields only 29 daily returns at the boundary;
when present it is the sample standard deviation of the trailing
min(30, sessions - 1) daily returns, expressed as a percentage and embedded
here through its square. -/
theorem volatility_30d_presence_window (hist : List Bar) (cp : ℚ) :
    ((calculate_technical_indicators hist cp).volatility_30d_sq ≠ none ↔
      30 ≤ hist.length)
  ∧ (pct_change (hist.map Bar.close)).length = hist.length - 1
  ∧ (30 ≤ hist.length →
      (calculate_technical_indicators hist cp).volatility_30d_sq =
        some (sample_var (tail_window (pct_change (hist.map Bar.close)) 30) * 10000)
      ∧ (tail_window (pct_change (hist.map Bar.close)) 30).length =
          min 30 (hist.length - 1)) := by
  refine ⟨?_, ?_, ?_⟩
  · by_cases h : 30 ≤ hist.length <;>
      simp [calculate_technical_indicators, h]
  · simpa using pct_change_length (hist.map Bar.close)
  · intro h
    constructor
    · simp [calculate_technical_indicators, h]
    · have hl : (pct_change (hist.map Bar.close)).length = hist.length - 1 := by
        simpa using pct_change_length (hist.map Bar.close)
      simp only [tail_window, List.length_drop, hl]
      omega

theorem guarded_diff_iff (a b : Option ℚ) (v : ℚ) :
    guarded_diff a b = some v ↔
      ∃ x y, a = some x ∧ b = some y ∧ x ≠ 0 ∧ y ≠ 0 ∧ v = x - y := by
  cases a with
  | none => simp [guarded_diff, truthy]
  | some x =>
    cases b with
    | none => simp [guarded_diff, truthy]
    | some y =>
      by_cases hx : x = 0
      · have hg : guarded_diff (some x) (some y) = none := by
          simp [guarded_diff, truthy, hx]
        rw [hg]
        constructor
        · intro h
          exact absurd h (by simp)
        · rintro ⟨x', y', hx', hy', h0x, h0y, rfl⟩
          obtain rfl := Option.some.inj hx'
          exact absurd hx h0x
      · by_cases hy : y = 0
        · have hg : guarded_diff (some x) (some y) = none := by
            simp [guarded_diff, truthy, hy]
          rw [hg]
          constructor
          · intro h
            exact absurd h (by simp)
          · rintro ⟨x', y', hx', hy', h0x, h0y, rfl⟩
            obtain rfl := Option.some.inj hy'
            exact absurd hy h0y
        · have hg : guarded_diff (some x) (some y) = some (x - y) := by
            simp [guarded_diff, truthy, hx, hy]
          rw [hg]
          constructor
          · intro h
            exact ⟨x, y, rfl, rfl, hx, hy, (Option.some.inj h).symm⟩
          · rintro ⟨x', y', hx', hy', h0x, h0y, rfl⟩
            obtain rfl := Option.some.inj hx'
            obtain rfl := Option.some.inj hy'
            rfl

/-- C1 counterexample: an instrument 1-day return of exactly 0 and an Ibovespa
1-day return of 1 are both present, so the claim requires vs_ibov_1d to be
present and equal to 0 - 1; the code leaves it absent, because its Python
truthiness guard treats the present 0 return as missing. -/
theorem benchmark_zero_operand_dropped :
    (some (0:ℚ)).isSome = true ∧ (bench_cx.ibov_change_1d).isSome = true
  ∧ (calculate_benchmark_comparison (some 0) none none bench_cx).vs_ibov_1d
      = none := ⟨rfl, rfl, rfl⟩

/-- C1 amended: only the 1-day, 1-month and year-to-date horizons carry a
relative-performance field (the source computes no 1-week one); each such
field is present exactly when the instrument return and the index return are
both present and both nonzero, and then equals their difference — an operand
whose value is exactly 0 is treated as absent; the benchmark changes
themselves are copied through unchanged. -/
theorem benchmark_comparison_fields (c1d c1m cytd : Option ℚ) (b : Benchmarks) :
    (∀ v, (calculate_benchmark_comparison c1d c1m cytd b).vs_ibov_1d = some v ↔
      ∃ x y, c1d = some x ∧ b.ibov_change_1d = some y ∧ x ≠ 0 ∧ y ≠ 0 ∧ v = x - y)
  ∧ (∀ v, (calculate_benchmark_comparison c1d c1m cytd b).vs_ibov_1m = some v ↔
      ∃ x y, c1m = some x ∧ b.ibov_change_1m = some y ∧ x ≠ 0 ∧ y ≠ 0 ∧ v = x - y)
  ∧ (∀ v, (calculate_benchmark_comparison c1d c1m cytd b).vs_ibov_ytd = some v ↔
      ∃ x y, cytd = some x ∧ b.ibov_change_ytd = some y ∧ x ≠ 0 ∧ y ≠ 0 ∧ v = x - y)
  ∧ (∀ v, (calculate_benchmark_comparison c1d c1m cytd b).vs_sp500_1d = some v ↔
      ∃ x y, c1d = some x ∧ b.sp500_change_1d = some y ∧ x ≠ 0 ∧ y ≠ 0 ∧ v = x - y)
  ∧ (∀ v, (calculate_benchmark_comparison c1d c1m cytd b).vs_sp500_1m = some v ↔
      ∃ x y, c1m = some x ∧ b.sp500_change_1m = some y ∧ x ≠ 0 ∧ y ≠ 0 ∧ v = x - y)
  ∧ (∀ v, (calculate_benchmark_comparison c1d c1m cytd b).vs_sp500_ytd = some v ↔
      ∃ x y, cytd = some x ∧ b.sp500_change_ytd = some y ∧ x ≠ 0 ∧ y ≠ 0 ∧ v = x - y)
  ∧ (calculate_benchmark_comparison c1d c1m cytd b).ibov_change_1d = b.ibov_change_1d
  ∧ (calculate_benchmark_comparison c1d c1m cytd b).ibov_change_1w = b.ibov_change_1w
  ∧ (calculate_benchmark_comparison c1d c1m cytd b).ibov_change_1m = b.ibov_change_1m
  ∧ (calculate_benchmark_comparison c1d c1m cytd b).ibov_change_ytd = b.ibov_change_ytd
  ∧ (calculate_benchmark_comparison c1d c1m cytd b).sp500_change_1d = b.sp500_change_1d
  ∧ (calculate_benchmark_comparison c1d c1m cytd b).sp500_change_1w = b.sp500_change_1w
  ∧ (calculate_benchmark_comparison c1d c1m cytd b).sp500_change_1m = b.sp500_change_1m
  ∧ (calculate_benchmark_comparison c1d c1m cytd b).sp500_change_ytd = b.sp500_change_ytd :=
  ⟨guarded_diff_iff c1d b.ibov_change_1d, guarded_diff_iff c1m b.ibov_change_1m,
    guarded_diff_iff cytd b.ibov_change_ytd, guarded_diff_iff c1d b.sp500_change_1d,
    guarded_diff_iff c1m b.sp500_change_1m, guarded_diff_iff cytd b.sp500_change_ytd,
    rfl, rfl, rfl, rfl, rfl, rfl, rfl, rfl⟩

/-- C2 counterexample: with the MA50-above-MA200 boolean absent the claim
requires both cross flags to be absent; the code writes both, each present
with value 0. -/
theorem cross_flags_present_when_ma_absent :
    sig_in_empty.ma_50_above_200 = none
  ∧ (calculate_signals sig_in_empty).signal_golden_cross = some 0
  ∧ (calculate_signals sig_in_empty).signal_death_cross = some 0 :=
  ⟨rfl, rfl, rfl⟩

/-- C2 amended: both cross flags are always present; when the MA50-above-MA200
boolean is present and true the golden cross is 1 and the death cross 0, when
present and false the death cross is 1 and the golden cross 0, and when the
boolean is absent both flags are present with value 0 (rather than absent). -/
theorem cross_flags_cases (q : SignalInput) :
    (calculate_signals q).signal_golden_cross ≠ none
  ∧ (calculate_signals q).signal_death_cross ≠ none
  ∧ (q.ma_50_above_200 = some 1 →
      (calculate_signals q).signal_golden_cross = some 1 ∧
      (calculate_signals q).signal_death_cross = some 0)
  ∧ (q.ma_50_above_200 = some 0 →
      (calculate_signals q).signal_golden_cross = some 0 ∧
      (calculate_signals q).signal_death_cross = some 1)
  ∧ (q.ma_50_above_200 = none →
      (calculate_signals q).signal_golden_cross = some 0 ∧
      (calculate_signals q).signal_death_cross = some 0) := by
  refine ⟨by simp [calculate_signals], by simp [calculate_signals], ?_, ?_, ?_⟩ <;>
    intro h <;>
    simp [calculate_signals, signal_golden_cross_of, signal_death_cross_of, h]

theorem vote_oversold (q : SignalInput) :
    vote (signal_rsi_oversold_of q) = (signal_rsi_oversold_of q).getD 0 := by
  unfold signal_rsi_oversold_of
  cases q.rsi_14 with
  | none => rfl
  | some r => by_cases h : r < 30 <;> simp [vote, h]

theorem vote_overbought (q : SignalInput) :
    vote (signal_rsi_overbought_of q) = (signal_rsi_overbought_of q).getD 0 := by
  unfold signal_rsi_overbought_of
  cases q.rsi_14 with
  | none => rfl
  | some r => by_cases h : 70 < r <;> simp [vote, h]

theorem vote_52w_high (q : SignalInput) :
    vote (signal_52w_high_of q) = (signal_52w_high_of q).getD 0 := by
  unfold signal_52w_high_of
  cases q.pct_from_52w_high with
  | none => rfl
  | some p => by_cases h : -5 ≤ p <;> simp [vote, h]

theorem vote_52w_low (q : SignalInput) :
    vote (signal_52w_low_of q) = (signal_52w_low_of q).getD 0 := by
  unfold signal_52w_low_of
  cases q.week_52_low with
  | none => rfl
  | some wl =>
    cases q.close with
    | none => rfl
    | some c =>
      by_cases h : wl ≠ 0 ∧ c ≠ 0
      · by_cases h5 : (c - wl) / wl * 100 ≤ 5 <;> simp [vote, h, h5]
      · simp [vote, h]

theorem vote_golden (q : SignalInput) :
    vote (some (signal_golden_cross_of q)) = signal_golden_cross_of q := by
  by_cases h : q.ma_50_above_200 = some 1 <;>
    simp [vote, signal_golden_cross_of, h]

theorem vote_death (q : SignalInput) :
    vote (some (signal_death_cross_of q)) = signal_death_cross_of q := by
  by_cases h : q.ma_50_above_200 = some 0 <;>
    simp [vote, signal_death_cross_of, h]

theorem spec_bullish_eq (q : SignalInput) :
    spec_bullish_votes q = bullish_count q := by
  unfold spec_bullish_votes bullish_count calculate_signals
  dsimp only
  rw [vote_oversold, vote_52w_low, vote_golden]
  rfl

theorem spec_bearish_eq (q : SignalInput) :
    spec_bearish_votes q = bearish_count q := by
  unfold spec_bearish_votes bearish_count calculate_signals
  dsimp only
  rw [vote_overbought, vote_52w_high, vote_death]
  rfl

/-- C3: signal_summary is the pure vote-count function of the flag inputs —
bullish exactly when the bullish votes (counted 1 for a set flag, 0 for clear
or absent) reach 3 and exceed the bearish votes, bearish in the symmetric
case, neutral in every other case including ties, and always one of the three
strings. -/
theorem signal_summary_votes (q : SignalInput) :
    ((calculate_signals q).signal_summary = "bullish" ↔
      3 ≤ spec_bullish_votes q ∧ spec_bearish_votes q < spec_bullish_votes q)
  ∧ ((calculate_signals q).signal_summary = "bearish" ↔
      3 ≤ spec_bearish_votes q ∧ spec_bullish_votes q < spec_bearish_votes q)
  ∧ ((calculate_signals q).signal_summary = "neutral" ↔
      ¬(3 ≤ spec_bullish_votes q ∧ spec_bearish_votes q < spec_bullish_votes q) ∧
      ¬(3 ≤ spec_bearish_votes q ∧ spec_bullish_votes q < spec_bearish_votes q))
  ∧ ((calculate_signals q).signal_summary = "bullish" ∨
      (calculate_signals q).signal_summary = "bearish" ∨
      (calculate_signals q).signal_summary = "neutral") := by
  rw [spec_bullish_eq, spec_bearish_eq]
  unfold calculate_signals
  dsimp only
  by_cases h1 : 3 ≤ bullish_count q ∧ bearish_count q < bullish_count q
  · have : ¬ (3 ≤ bearish_count q ∧ bullish_count q < bearish_count q) := by
      rintro ⟨_, hc⟩
      exact absurd h1.2 (not_lt.mpr (le_of_lt hc))
    simp [h1, this]
  · by_cases h2 : 3 ≤ bearish_count q ∧ bullish_count q < bearish_count q
    · simp [h1, h2]
    · simp [h1, h2]

theorem quote_key_eq_iff (r : QuoteRow) (aid : ℕ) (d : ℤ) :
    quote_key r = (aid, d) ↔ r.asset_id = aid ∧ r.quote_date = d := by
  unfold quote_key
  constructor
  · intro hc
    exact ⟨congrArg Prod.fst hc, congrArg Prod.snd hc⟩
  · rintro ⟨h1, h2⟩
    rw [h1, h2]

theorem has_key_of_mem (db : List QuoteRow) (r : QuoteRow) (aid : ℕ) (d : ℤ)
    (hr : r ∈ db) (h1 : r.asset_id = aid) (h2 : r.quote_date = d) :
    has_key db aid d := by
  unfold has_key
  exact List.mem_map.mpr ⟨r, hr, (quote_key_eq_iff r aid d).mpr ⟨h1, h2⟩⟩

theorem map_key_save (db : List QuoteRow) (aid : ℕ) (qd : QuoteData) (pb : ℚ)
    (pu : Option ℚ) (now : ℤ) :
    (save_quote db aid qd pb pu now).map quote_key =
      if has_key db aid qd.date then db.map quote_key
      else db.map quote_key ++ [(aid, qd.date)] := by
  induction db with
  | nil => simp [save_quote, has_key, quote_key, new_quote_row]
  | cons r rest ih =>
    by_cases h : r.asset_id = aid ∧ r.quote_date = qd.date
    · have hhk : has_key (r :: rest) aid qd.date :=
        has_key_of_mem _ r aid qd.date (List.mem_cons_self r rest) h.1 h.2
      simp only [save_quote, if_pos h, List.map_cons, if_pos hhk]
      rfl
    · have hne : quote_key r ≠ (aid, qd.date) := fun hc =>
        h ((quote_key_eq_iff r aid qd.date).mp hc)
      have hiff : has_key (r :: rest) aid qd.date ↔ has_key rest aid qd.date := by
        unfold has_key
        simp only [List.map_cons, List.mem_cons]
        constructor
        · rintro (hc | hc)
          · exact absurd hc.symm hne
          · exact hc
        · exact fun hc => Or.inr hc
      simp only [save_quote, if_neg h, List.map_cons, ih]
      by_cases hr : has_key rest aid qd.date
      · rw [if_pos hr, if_pos (hiff.mpr hr)]
      · rw [if_neg hr, if_neg (fun hc => hr (hiff.mp hc))]
        simp

theorem keys_nodup_save (db : List QuoteRow) (aid : ℕ) (qd : QuoteData) (pb : ℚ)
    (pu : Option ℚ) (now : ℤ) (hnodup : keys_nodup db) :
    keys_nodup (save_quote db aid qd pb pu now) := by
  unfold keys_nodup
  rw [map_key_save]
  by_cases h : has_key db aid qd.date
  · rw [if_pos h]
    exact hnodup
  · rw [if_neg h]
    refine List.Nodup.append hnodup (List.nodup_singleton _) ?_
    intro x hx hx1
    obtain rfl := List.mem_singleton.mp hx1
    exact h hx

theorem rows_with_key_nil_of_fresh (db : List QuoteRow) (aid : ℕ) (d : ℤ)
    (h : ¬ has_key db aid d) : rows_with_key db aid d = [] := by
  unfold rows_with_key
  rw [List.filter_eq_nil_iff]
  intro r hr hc
  simp only [Bool.and_eq_true, decide_eq_true_eq] at hc
  exact h (has_key_of_mem db r aid d hr hc.1 hc.2)

theorem rows_one_after_save (db : List QuoteRow) (aid : ℕ) (qd : QuoteData)
    (pb : ℚ) (pu : Option ℚ) (now : ℤ) (hnodup : keys_nodup db) :
    (rows_with_key (save_quote db aid qd pb pu now) aid qd.date).length = 1 := by
  induction db with
  | nil => simp [save_quote, rows_with_key, List.filter_cons, new_quote_row]
  | cons r rest ih =>
    have hnodup' : (quote_key r :: List.map quote_key rest).Nodup := by
      unfold keys_nodup at hnodup
      rwa [List.map_cons] at hnodup
    have hnd := List.nodup_cons.mp hnodup'
    by_cases h : r.asset_id = aid ∧ r.quote_date = qd.date
    · have hfresh : ¬ has_key rest aid qd.date := by
        intro hc
        apply hnd.1
        rw [(quote_key_eq_iff r aid qd.date).mpr h]
        exact hc
      have hempty : rows_with_key rest aid qd.date = [] :=
        rows_with_key_nil_of_fresh rest aid qd.date hfresh
      have hpred : (update_quote_row r qd pb pu now).asset_id = aid ∧
          (update_quote_row r qd pb pu now).quote_date = qd.date := ⟨h.1, h.2⟩
      simp only [save_quote, if_pos h]
      unfold rows_with_key at hempty ⊢
      rw [List.filter_cons, if_pos (by simpa using hpred), hempty]
      rfl
    · simp only [save_quote, if_neg h]
      unfold rows_with_key
      rw [List.filter_cons, if_neg (by simpa using h)]
      exact ih (show keys_nodup rest from hnd.2)

theorem save_quote_append_of_fresh (db : List QuoteRow) (aid : ℕ)
    (qd : QuoteData) (pb : ℚ) (pu : Option ℚ) (now : ℤ) :
    ¬ has_key db aid qd.date →
      save_quote db aid qd pb pu now =
        db ++ [new_quote_row aid qd.date qd pb pu now] := by
  induction db with
  | nil => intro _; rfl
  | cons r rest ih =>
    intro h
    have hne : ¬ (r.asset_id = aid ∧ r.quote_date = qd.date) := fun hc =>
      h (has_key_of_mem _ r aid qd.date (List.mem_cons_self r rest) hc.1 hc.2)
    have hrest : ¬ has_key rest aid qd.date := by
      intro hc
      apply h
      unfold has_key at hc ⊢
      simp only [List.map_cons, List.mem_cons]
      exact Or.inr hc
    simp [save_quote, hne, ih hrest]

theorem save_quote_replaces_appended (db : List QuoteRow) (row : QuoteRow)
    (aid : ℕ) (qd : QuoteData) (pb : ℚ) (pu : Option ℚ) (now : ℤ) :
    ¬ has_key db aid qd.date → row.asset_id = aid → row.quote_date = qd.date →
      save_quote (db ++ [row]) aid qd pb pu now =
        db ++ [update_quote_row row qd pb pu now] := by
  induction db with
  | nil =>
    intro _ h1 h2
    simp [save_quote, h1, h2]
  | cons r rest ih =>
    intro h h1 h2
    have hne : ¬ (r.asset_id = aid ∧ r.quote_date = qd.date) := fun hc =>
      h (has_key_of_mem _ r aid qd.date (List.mem_cons_self r rest) hc.1 hc.2)
    have hrest : ¬ has_key rest aid qd.date := by
      intro hc
      apply h
      unfold has_key at hc ⊢
      simp only [List.map_cons, List.mem_cons]
      exact Or.inr hc
    simp [save_quote, hne, ih hrest h1 h2]

theorem update_update_row (r : QuoteRow) (qd1 qd2 : QuoteData) (pb1 pb2 : ℚ)
    (pu1 pu2 : Option ℚ) (n1 n2 : ℤ) :
    update_quote_row (update_quote_row r qd1 pb1 pu1 n1) qd2 pb2 pu2 n2 =
      update_quote_row r qd2 pb2 pu2 n2 := rfl

theorem update_new_row (aid : ℕ) (qdate : ℤ) (qd1 qd2 : QuoteData)
    (pb1 pb2 : ℚ) (pu1 pu2 : Option ℚ) (n1 n2 : ℤ) :
    update_quote_row (new_quote_row aid qdate qd1 pb1 pu1 n1) qd2 pb2 pu2 n2 =
      new_quote_row aid qdate qd2 pb2 pu2 n2 := rfl

/-- C8: the store keeps at most one row per (asset, quote date) — a save
preserves key uniqueness and leaves exactly one row carrying the saved key;
updating twice overwrites every updated column with the second run, and for a
pair not yet in the store, the first save appends one row and a second save
for the same trading day replaces that row in place with the second run's
values, leaving the store one row larger than before the first save. -/
theorem quote_store_upsert (db : List QuoteRow) (aid : ℕ) (qd1 qd2 : QuoteData)
    (pb1 pb2 : ℚ) (pu1 pu2 : Option ℚ) (n1 n2 : ℤ)
    (hnodup : keys_nodup db) (hdate : qd2.date = qd1.date) :
    keys_nodup (save_quote db aid qd1 pb1 pu1 n1)
  ∧ (rows_with_key (save_quote db aid qd1 pb1 pu1 n1) aid qd1.date).length = 1
  ∧ (∀ r : QuoteRow,
      update_quote_row (update_quote_row r qd1 pb1 pu1 n1) qd2 pb2 pu2 n2 =
        update_quote_row r qd2 pb2 pu2 n2)
  ∧ (¬ has_key db aid qd1.date →
      save_quote db aid qd1 pb1 pu1 n1 =
        db ++ [new_quote_row aid qd1.date qd1 pb1 pu1 n1]
      ∧ save_quote (save_quote db aid qd1 pb1 pu1 n1) aid qd2 pb2 pu2 n2 =
          db ++ [new_quote_row aid qd1.date qd2 pb2 pu2 n2]
      ∧ rows_with_key
          (save_quote (save_quote db aid qd1 pb1 pu1 n1) aid qd2 pb2 pu2 n2)
          aid qd1.date
        = [new_quote_row aid qd1.date qd2 pb2 pu2 n2]
      ∧ (save_quote (save_quote db aid qd1 pb1 pu1 n1) aid qd2 pb2 pu2 n2).length
          = db.length + 1
      ∧ keys_nodup
          (save_quote (save_quote db aid qd1 pb1 pu1 n1) aid qd2 pb2 pu2 n2)) := by
  refine ⟨keys_nodup_save db aid qd1 pb1 pu1 n1 hnodup,
    rows_one_after_save db aid qd1 pb1 pu1 n1 hnodup,
    fun r => update_update_row r qd1 qd2 pb1 pb2 pu1 pu2 n1 n2, ?_⟩
  intro hfresh
  have h1 : save_quote db aid qd1 pb1 pu1 n1 =
      db ++ [new_quote_row aid qd1.date qd1 pb1 pu1 n1] :=
    save_quote_append_of_fresh db aid qd1 pb1 pu1 n1 hfresh
  have hfresh2 : ¬ has_key db aid qd2.date := by
    rw [hdate]
    exact hfresh
  have h2 : save_quote (save_quote db aid qd1 pb1 pu1 n1) aid qd2 pb2 pu2 n2 =
      db ++ [new_quote_row aid qd1.date qd2 pb2 pu2 n2] := by
    rw [h1, save_quote_replaces_appended db _ aid qd2 pb2 pu2 n2 hfresh2 rfl
      (by rw [hdate]; rfl), update_new_row]
  refine ⟨h1, h2, ?_, ?_, ?_⟩
  · rw [h2]
    unfold rows_with_key
    rw [List.filter_append]
    have hempty : rows_with_key db aid qd1.date = [] := by
      unfold rows_with_key
      rw [List.filter_eq_nil_iff]
      intro r hr hc
      simp only [Bool.and_eq_true, decide_eq_true_eq] at hc
      exact hfresh (has_key_of_mem db r aid qd1.date hr hc.1 hc.2)
    unfold rows_with_key at hempty
    rw [hempty]
    simp [new_quote_row]
  · rw [h2]
    simp
  · rw [h2, ← update_new_row aid qd1.date qd1 qd2 pb1 pb2 pu1 pu2 n1 n2,
      ← save_quote_replaces_appended db _ aid qd2 pb2 pu2 n2 hfresh2 rfl
        (by rw [hdate]; rfl), ← h1]
    exact keys_nodup_save _ aid qd2 pb2 pu2 n2
      (keys_nodup_save db aid qd1 pb1 pu1 n1 hnodup)

theorem fetch_single_asset_none_of_fails
    (oracle : String → Option (List Bar × Fundamentals)) (year_start : ℤ → ℤ)
    (t : String) (info : AssetInfo) (aty : String) (isbr : Bool) (usd : ℚ)
    (b : Benchmarks) (hfail : fetch_fails oracle t) :
    fetch_single_asset oracle year_start t info aty isbr usd b = none := by
  rcases hfail with h | ⟨f, h⟩
  · simp [fetch_single_asset, h]
  · simp [fetch_single_asset, h, fetch_quote_with_history]

theorem fetch_single_asset_shape
    (oracle : String → Option (List Bar × Fundamentals)) (year_start : ℤ → ℤ)
    (t : String) (info : AssetInfo) (aty : String) (isbr : Bool) (usd : ℚ)
    (b : Benchmarks) (r : FetchResult)
    (h : fetch_single_asset oracle year_start t info aty isbr usd b = some r) :
    r.ticker = t ∧ r.asset_type = aty ∧
      r.price_brl = (asset_prices aty r.quote_data.close usd).1 ∧
      r.price_usd = (asset_prices aty r.quote_data.close usd).2 := by
  unfold fetch_single_asset at h
  cases ho : oracle t with
  | none =>
    rw [ho] at h
    cases h
  | some p =>
    obtain ⟨hist, fund⟩ := p
    rw [ho] at h
    dsimp only at h
    cases hq : fetch_quote_with_history t hist fund year_start with
    | none =>
      rw [hq] at h
      cases h
    | some qd0 =>
      rw [hq] at h
      dsimp only at h
      obtain rfl := Option.some.inj h
      exact ⟨rfl, rfl, rfl, rfl⟩

theorem counts_eq_filters (oracle : String → Option (List Bar × Fundamentals))
    (year_start : ℤ → ℤ) (usd : ℚ) (b : Benchmarks) (assets : List AssetSpec) :
    fetch_all_quotes_counts oracle year_start usd b assets =
      ((assets.filter (fun a => (fetch_single_asset oracle year_start a.ticker
          a.info a.asset_type a.is_brazilian usd b).isSome)).length,
       (assets.filter (fun a => (fetch_single_asset oracle year_start a.ticker
          a.info a.asset_type a.is_brazilian usd b).isNone)).length) := by
  induction assets with
  | nil => rfl
  | cons a rest ih =>
    cases hfa : fetch_single_asset oracle year_start a.ticker a.info
        a.asset_type a.is_brazilian usd b with
    | none => simp [fetch_all_quotes_counts, hfa, ih, List.filter_cons]
    | some v => simp [fetch_all_quotes_counts, hfa, ih, List.filter_cons]

theorem filter_some_none_length (f : AssetSpec → Option FetchResult)
    (l : List AssetSpec) :
    (l.filter (fun a => (f a).isSome)).length +
      (l.filter (fun a => (f a).isNone)).length = l.length := by
  induction l with
  | nil => rfl
  | cons a rest ih =>
    cases hfa : f a <;> simp [List.filter_cons, hfa] <;> omega

/-- C9: an instrument whose fetch fails (raised error or empty series) yields
no record: fetch_single_asset returns None for it, no phase-2 result carries
its ticker, the run still counts every catalog asset exactly once (successes
are the assets with a record, failures the rest, the two counters summing to
the catalog size) and reports that counter pair, and any other record depends
only on its own fetched data, so the failure leaves it unchanged. -/
theorem failed_fetch_isolated
    (oracle oracle2 : String → Option (List Bar × Fundamentals))
    (year_start : ℤ → ℤ) (assets : List AssetSpec) (usd : ℚ) (b : Benchmarks)
    (t : String) (hfail : fetch_fails oracle t) :
    (∀ info aty isbr,
      fetch_single_asset oracle year_start t info aty isbr usd b = none)
  ∧ (∀ r ∈ phase2_results oracle year_start assets usd b, r.ticker ≠ t)
  ∧ fetch_all_quotes_counts oracle year_start usd b assets =
      ((assets.filter (fun a => (fetch_single_asset oracle year_start a.ticker
          a.info a.asset_type a.is_brazilian usd b).isSome)).length,
       (assets.filter (fun a => (fetch_single_asset oracle year_start a.ticker
          a.info a.asset_type a.is_brazilian usd b).isNone)).length)
  ∧ (fetch_all_quotes_counts oracle year_start usd b assets).1 +
      (fetch_all_quotes_counts oracle year_start usd b assets).2 = assets.length
  ∧ (∀ a ∈ assets, oracle2 a.ticker = oracle a.ticker →
      fetch_single_asset oracle2 year_start a.ticker a.info a.asset_type
        a.is_brazilian usd b =
      fetch_single_asset oracle year_start a.ticker a.info a.asset_type
        a.is_brazilian usd b) := by
  refine ⟨fun info aty isbr =>
      fetch_single_asset_none_of_fails oracle year_start t info aty isbr usd b
        hfail, ?_, counts_eq_filters oracle year_start usd b assets, ?_, ?_⟩
  · intro r hr
    obtain ⟨a, ha, hfa⟩ := List.mem_filterMap.mp hr
    obtain ⟨hticker, -, -, -⟩ := fetch_single_asset_shape oracle year_start
      a.ticker a.info a.asset_type a.is_brazilian usd b r hfa
    intro hc
    have hat : a.ticker = t := by rw [← hticker, hc]
    rw [hat, fetch_single_asset_none_of_fails oracle year_start t a.info
      a.asset_type a.is_brazilian usd b hfail] at hfa
    cases hfa
  · rw [counts_eq_filters]
    exact filter_some_none_length _ assets
  · intro a _ hagree
    simp only [fetch_single_asset, hagree]

/-- C10: for every record fetch_single_asset returns, a Brazilian stock
carries its close as the BRL price and close divided by the rate as the USD
price, the currency pair carries its close as the BRL price and exactly 1 as
the USD price, every other asset class carries its close as the USD price and
close times the rate as the BRL price — and for every non-currency asset the
identity BRL price = USD price times rate holds (the rate is nonzero: the
source would raise on a zero divisor and the fallback rate is 6.20). -/
theorem price_currency_conversion
    (oracle : String → Option (List Bar × Fundamentals)) (year_start : ℤ → ℤ)
    (t : String) (info : AssetInfo) (aty : String) (isbr : Bool) (usd : ℚ)
    (b : Benchmarks) (r : FetchResult)
    (h : fetch_single_asset oracle year_start t info aty isbr usd b = some r)
    (husd : usd ≠ 0) :
    (aty = "stock" →
      r.price_brl = r.quote_data.close ∧
      r.price_usd = r.quote_data.close / usd)
  ∧ (aty = "currency" → r.price_brl = r.quote_data.close ∧ r.price_usd = 1)
  ∧ (aty ≠ "stock" → aty ≠ "currency" →
      r.price_usd = r.quote_data.close ∧
      r.price_brl = r.quote_data.close * usd)
  ∧ (aty ≠ "currency" → r.price_brl = r.price_usd * usd) := by
  obtain ⟨-, -, hbrl, husd'⟩ := fetch_single_asset_shape oracle year_start t
    info aty isbr usd b r h
  refine ⟨?_, ?_, ?_, ?_⟩
  · intro h1
    rw [hbrl, husd', asset_prices, if_pos h1]
    exact ⟨rfl, rfl⟩
  · intro h2
    have h1 : aty ≠ "stock" := by
      rw [h2]
      decide
    rw [hbrl, husd', asset_prices, if_neg h1, if_pos h2]
    exact ⟨rfl, rfl⟩
  · intro h1 h2
    rw [hbrl, husd', asset_prices, if_neg h1, if_neg h2]
    exact ⟨rfl, rfl⟩
  · intro h2
    by_cases h1 : aty = "stock"
    · rw [hbrl, husd', asset_prices, if_pos h1]
      exact (div_mul_cancel₀ r.quote_data.close husd).symm
    · rw [hbrl, husd', asset_prices, if_neg h1, if_neg h2]

/-- Concrete instance of quote_store_upsert: an empty store, asset 1, two
saves for the same trading day. -/
theorem quote_store_upsert_witness :
    keys_nodup ([] : List QuoteRow)
  ∧ qd0W.date = qd0W.date
  ∧ (keys_nodup (save_quote [] 1 qd0W 1 none 0)
  ∧ (rows_with_key (save_quote [] 1 qd0W 1 none 0) 1 qd0W.date).length = 1
  ∧ (∀ r : QuoteRow,
      update_quote_row (update_quote_row r qd0W 1 none 0) qd0W 2 (some 3) 1 =
        update_quote_row r qd0W 2 (some 3) 1)
  ∧ (¬ has_key [] 1 qd0W.date →
      save_quote [] 1 qd0W 1 none 0 =
        [] ++ [new_quote_row 1 qd0W.date qd0W 1 none 0]
      ∧ save_quote (save_quote [] 1 qd0W 1 none 0) 1 qd0W 2 (some 3) 1 =
          [] ++ [new_quote_row 1 qd0W.date qd0W 2 (some 3) 1]
      ∧ rows_with_key
          (save_quote (save_quote [] 1 qd0W 1 none 0) 1 qd0W 2 (some 3) 1)
          1 qd0W.date
        = [new_quote_row 1 qd0W.date qd0W 2 (some 3) 1]
      ∧ (save_quote (save_quote [] 1 qd0W 1 none 0) 1 qd0W 2 (some 3) 1).length
          = ([] : List QuoteRow).length + 1
      ∧ keys_nodup
          (save_quote (save_quote [] 1 qd0W 1 none 0) 1 qd0W 2 (some 3) 1))) :=
  ⟨List.nodup_nil, rfl,
    quote_store_upsert [] 1 qd0W qd0W 1 2 none (some 3) 0 1 List.nodup_nil rfl⟩

/-- Concrete instance of failed_fetch_isolated: a one-asset catalog against an
oracle whose every fetch raises, compared with a healthy oracle. -/
theorem failed_fetch_isolated_witness :
    (∀ info aty isbr,
      fetch_single_asset oracle_down year_start0 "PETR4.SA" info aty isbr 2
        bench0 = none)
  ∧ (∀ r ∈ phase2_results oracle_down year_start0 assets1 2 bench0,
      r.ticker ≠ "PETR4.SA")
  ∧ fetch_all_quotes_counts oracle_down year_start0 2 bench0 assets1 =
      ((assets1.filter (fun a => (fetch_single_asset oracle_down year_start0
          a.ticker a.info a.asset_type a.is_brazilian 2 bench0).isSome)).length,
       (assets1.filter (fun a => (fetch_single_asset oracle_down year_start0
          a.ticker a.info a.asset_type a.is_brazilian 2 bench0).isNone)).length)
  ∧ (fetch_all_quotes_counts oracle_down year_start0 2 bench0 assets1).1 +
      (fetch_all_quotes_counts oracle_down year_start0 2 bench0 assets1).2 =
      assets1.length
  ∧ (∀ a ∈ assets1, oracle_ok a.ticker = oracle_down a.ticker →
      fetch_single_asset oracle_ok year_start0 a.ticker a.info a.asset_type
        a.is_brazilian 2 bench0 =
      fetch_single_asset oracle_down year_start0 a.ticker a.info a.asset_type
        a.is_brazilian 2 bench0) :=
  failed_fetch_isolated oracle_down oracle_ok year_start0 assets1 2 bench0
    "PETR4.SA" (Or.inl rfl)

/-- Concrete instance of price_currency_conversion: a Brazilian stock with
close 4 against a USD/BRL rate of 2. -/
theorem price_conversion_witness :
    (("stock" : String) = "stock" →
      result1.price_brl = result1.quote_data.close ∧
      result1.price_usd = result1.quote_data.close / 2)
  ∧ (("stock" : String) = "currency" →
      result1.price_brl = result1.quote_data.close ∧ result1.price_usd = 1)
  ∧ (("stock" : String) ≠ "stock" → ("stock" : String) ≠ "currency" →
      result1.price_usd = result1.quote_data.close ∧
      result1.price_brl = result1.quote_data.close * 2)
  ∧ (("stock" : String) ≠ "currency" →
      result1.price_brl = result1.price_usd * 2) :=
  price_currency_conversion oracle_ok year_start0 "PETR4.SA" info0 "stock" true
    2 bench0 result1 rfl (by norm_num)

end B3
